import Mathlib

/-
Verification development for the resumable-download module (src/mod.ts).
The TypeScript code is shallowly embedded: JavaScript numbers restricted to
the values that arise here (integers, NaN, the two infinities) become JSNum;
header maps become association lists of string pairs; the fetch environment
becomes an explicit script of responses; the output stream becomes a trace
of events.  Every definition follows the source line by line.
-/

namespace Download

/-- JavaScript number values that occur in the module: integers, NaN and the
two infinities.  No other values arise from the integer arithmetic and the
Number conversions performed by the code. -/
inductive JSNum where
  | nan
  | posInf
  | negInf
  | int (n : Int)
deriving DecidableEq, Repr

/-- Negation of a JavaScript number. -/
def jsNeg : JSNum → JSNum
  | .nan => .nan
  | .posInf => .negInf
  | .negInf => .posInf
  | .int n => .int (-n)

/-- Addition of JavaScript numbers. -/
def jsAdd : JSNum → JSNum → JSNum
  | .nan, _ => .nan
  | _, .nan => .nan
  | .posInf, .negInf => .nan
  | .negInf, .posInf => .nan
  | .posInf, _ => .posInf
  | _, .posInf => .posInf
  | .negInf, _ => .negInf
  | _, .negInf => .negInf
  | .int a, .int b => .int (a + b)

/-- Subtraction of JavaScript numbers. -/
def jsSub (a b : JSNum) : JSNum := jsAdd a (jsNeg b)

/-- Template-literal rendering of a JavaScript number, as in
the backquoted strings of the source. -/
def jsNumToString : JSNum → String
  | .nan => "NaN"
  | .posInf => "Infinity"
  | .negInf => "-Infinity"
  | .int n => toString n

/-- Numeric value of a list of decimal digits. -/
def digitsVal (s : List Char) : Nat :=
  s.foldl (fun acc c => acc * 10 + (c.toNat - 48)) 0

/-- The JavaScript Number conversion on the strings this module produces:
the empty string converts to 0, a string of decimal digits with an optional
leading minus sign converts to that integer, anything else (such as a string
still carrying the range unit) converts to NaN. -/
def jsNumber (s : List Char) : JSNum :=
  match s with
  | [] => .int 0
  | '-' :: rest =>
      if rest.isEmpty then .nan
      else if rest.all Char.isDigit then .int (-(digitsVal rest : Int)) else .nan
  | _ => if s.all Char.isDigit then .int (digitsVal s) else .nan

/-- JavaScript String.indexOf for a single character: first index, or -1. -/
def jsIndexOf (s : List Char) (c : Char) : Int :=
  match s.findIdx? (· == c) with
  | some i => (i : Int)
  | none => -1

/-- JavaScript String.substring with two integer arguments: both are clamped
into the string bounds and swapped when out of order. -/
def jsSubstring (s : List Char) (a b : Int) : List Char :=
  let n : Int := s.length
  let a2 := min (max a 0) n
  let b2 := min (max b 0) n
  let lo := min a2 b2
  let hi := max a2 b2
  (s.take hi.toNat).drop lo.toNat

/-- JavaScript String.substring where the second argument may be undefined,
in which case the slice runs to the end of the string. -/
def jsSubstringOpt (s : List Char) (a : Int) (b : Option Int) : List Char :=
  jsSubstring s a (b.getD (s.length : Int))

/-- JavaScript TypedArray.subarray with start 0 and the given end value:
NaN clamps to 0, a negative end counts from the end of the array, positive
infinity keeps the whole array. -/
def jsSubarrayTo (bytes : List Nat) (e : JSNum) : List Nat :=
  match e with
  | .nan => []
  | .posInf => bytes
  | .negInf => []
  | .int k =>
      if k < 0 then bytes.take ((bytes.length : Int) + k).toNat
      else bytes.take k.toNat

/-- Character-list test that the first list starts with the second. -/
def jsStartsWith : List Char → List Char → Bool
  | _, [] => true
  | [], _ :: _ => false
  | c :: s, p :: ps => c == p && jsStartsWith s ps

/-- Case-insensitive equality of header names (ASCII lowering, as the
Headers class normalises names). -/
def headerNameEq (a b : String) : Bool :=
  a.data.map Char.toLower == b.data.map Char.toLower

/-- Header maps are association lists of name-value pairs, in insertion
order, as both plain JavaScript objects and Headers instances are here. -/
abbrev HeadersObj := List (String × String)

/-- Headers.get: case-insensitive lookup; values of all matching entries are
joined with a comma and a space; null when no entry matches. -/
def jsHeadersGet (h : HeadersObj) (name : String) : Option String :=
  match h.filter (fun p => headerNameEq p.1 name) with
  | [] => none
  | vs => some (String.intercalate ", " (vs.map Prod.snd))

/-- Plain-object key update as performed by an object spread followed by an
explicit key: an existing key keeps its position and gets the new value, a
new key is appended.  Object keys are case-sensitive. -/
def objSet (h : HeadersObj) (k v : String) : HeadersObj :=
  if h.any (fun p => p.1 == k) then
    h.map (fun p => if p.1 == k then (k, v) else p)
  else h ++ [(k, v)]

/-- Result of parsing the request Range header in the source: both bounds
come from the Number conversion of substrings of the header value. -/
structure ReqRange where
  start : JSNum
  end_ : JSNum
deriving DecidableEq, Repr

/-- The request-Range parsing expression of the source: dashIndex is the
index of the first dash, commaIndex is the first comma index when positive
and undefined otherwise, start is Number of the text before the dash (the
source does not strip the leading unit text) and end is Number of the text
between the dash and the comma. -/
def parseRequestRange (v : String) : ReqRange :=
  let s := v.data
  let dashIndex := jsIndexOf s '-'
  let commaIndex : Option Int :=
    let m := max (jsIndexOf s ',') 0
    if m = 0 then none else some m
  { start := jsNumber (jsSubstring s 0 dashIndex),
    end_ := jsNumber (jsSubstringOpt s (dashIndex + 1) commaIndex) }

/-- Result of parsing the response Content-Range header in the source. -/
structure ContentRange where
  start : JSNum
  end_ : JSNum
  total : JSNum
deriving DecidableEq, Repr

/-- The Content-Range parsing expression of the source: a value that does
not start with the unit text followed by a space throws a TypeError, start
is Number of the text between index 6 and the dash, end is Number of the
text between the dash and the slash, totalSize is the substring FROM the
slash (so it still contains the slash), and total is positive infinity when
totalSize equals the star character and otherwise Number applied to the
WHOLE header value, exactly as written in the source. -/
def parseContentRange (v : String) : Except String ContentRange :=
  if ¬ jsStartsWith v.data "bytes ".data then
    .error ("Content-Range header has unsupported unit: " ++ v)
  else
    let s := v.data
    let dashIndex := jsIndexOf s '-'
    let slashIndex := jsIndexOf s '/'
    let totalSize := jsSubstringOpt s slashIndex none
    .ok { start := jsNumber (jsSubstring s 6 dashIndex),
          end_ := jsNumber (jsSubstring s (dashIndex + 1) slashIndex),
          total := if totalSize = "*".data then JSNum.posInf else jsNumber s }

/-- Initial currentSize: the Content-Range start when that header parsed,
otherwise 0. -/
def initialCurrent : Option ContentRange → JSNum
  | some c => c.start
  | none => .int 0

/-- The content-length fallback budget of the source: Number of the header
value, replaced by positive infinity when falsy (absent header, the value 0,
or NaN). -/
def contentLengthBudget : Option String → JSNum
  | none => .posInf
  | some v =>
      match jsNumber v.data with
      | .int k => if k = 0 then .posInf else .int k
      | .posInf => .posInf
      | .negInf => .negInf
      | .nan => .posInf

/-- Initial bytesLeft: the difference end minus start of the parsed
Content-Range when present, otherwise the content-length fallback. -/
def initialBudget (cr : Option ContentRange) (clen : Option String) : JSNum :=
  match cr with
  | none => contentLengthBudget clen
  | some c => jsSub c.end_ c.start

/-- One response of the fetch environment: status, status text, response
headers, the chunks its body stream delivers (bytes as naturals), whether the
body stream then raises an error instead of ending cleanly, and the value the
cancellation signal of the caller has at the moment that error is caught. -/
structure Response where
  status : Nat
  statusText : String
  headers : HeadersObj
  body : List (List Nat)
  bodyFails : Bool
  signalAtError : Bool
deriving DecidableEq, Repr

/-- The request options object; only the headers field is consulted and
mutated by the module. -/
structure RequestInit where
  headers : Option HeadersObj
deriving DecidableEq, Repr

/-- Observable events on the writable side of the output TransformStream:
an enqueued chunk, a close call, or an abort call with its reason string. -/
inductive OutEvent where
  | chunk (bytes : List Nat)
  | close
  | abort (msg : String)
deriving DecidableEq, Repr

/-- State left by piping a body through the truncating TransformStream:
the chunks enqueued downstream and the updated counters. -/
structure PumpResult where
  out : List (List Nat)
  cur : JSNum
  left : JSNum
deriving DecidableEq, Repr

/-- The transform callback of the source: the chunk is truncated to the
remaining budget with subarray, currentSize grows and bytesLeft shrinks by
the truncated length, and the truncated chunk is enqueued. -/
def transformChunk (chunk : List Nat) (cur left : JSNum) :
    List Nat × JSNum × JSNum :=
  let c := jsSubarrayTo chunk left
  (c, jsAdd cur (JSNum.int c.length), jsSub left (JSNum.int c.length))

/-- Piping a whole body through the transform, chunk by chunk. -/
def pumpChunks : List (List Nat) → JSNum → JSNum → PumpResult
  | [], cur, left => ⟨[], cur, left⟩
  | c :: cs, cur, left =>
    let t := transformChunk c cur left
    let r := pumpChunks cs t.2.1 t.2.2
    ⟨t.1 :: r.out, r.cur, r.left⟩

/-- Rendering of the optional end bound of the parsed request range in the
retry Range header, as the template literal of the source writes it: the
empty string when no Range header was supplied, otherwise the end number. -/
def rangeEndStr : Option ReqRange → String
  | none => ""
  | some r => jsNumToString r.end_

/-- The header rebuild before a retry fetch: an object spread of the old
headers with the range key set to the resumed range and the if-match key set
to the captured etag (empty string when none). -/
def retryHeaders (h : HeadersObj) (cur : JSNum) (range : Option ReqRange)
    (etag : Option String) : HeadersObj :=
  objSet
    (objSet h "range" ("bytes=" ++ jsNumToString cur ++ "-" ++ rangeEndStr range))
    "if-match" (etag.getD "")

/-- The background while loop of the source.  Arguments: the parsed request
range and etag captured once before the loop, the response currently being
streamed, the script of responses the environment will give to later fetches,
the current value of the mutable init.headers, and the two counters.  Returns
the events on the writable, the header objects of the retry fetches that were
issued, and the final value of init.headers.  An exhausted script models an
environment whose next fetch never resolves, leaving the loop suspended. -/
def downloadLoop (range : Option ReqRange) (etag : Option String) :
    Response → List Response → HeadersObj → JSNum → JSNum →
    List OutEvent × List HeadersObj × HeadersObj
  | resp, rest, hdrs, cur, left =>
    let p := pumpChunks resp.body cur left
    let evs := p.out.map OutEvent.chunk
    if resp.bodyFails = false then
      (evs ++ [OutEvent.close], [], hdrs)
    else if resp.signalAtError then
      (evs, [], hdrs)
    else
      let hdrs2 := retryHeaders hdrs p.cur range etag
      match rest with
      | [] => (evs, [], hdrs2)
      | r :: rs =>
        if r.status = 206 then
          let t := downloadLoop range etag r rs hdrs2 p.cur p.left
          (evs ++ t.1, hdrs2 :: t.2.1, t.2.2)
        else
          (evs ++ [OutEvent.abort
              ("Status Code (" ++ toString r.status ++ ") wasn\x27t 206")],
            [hdrs2], hdrs2)

/-- Outcome of one call of the download function against a response script:
the settled value of the returned promise (an error is a rejection carrying
the thrown message, otherwise the snapshot of the first response headers),
the events on the output channel, the headers object of every fetch issued
(the first request included), and the final value of init.headers. -/
structure DownloadRun where
  result : Except String HeadersObj
  events : List OutEvent
  requests : List HeadersObj
  finalHeaders : HeadersObj
deriving Repr

/-- Tail of the download function once the Content-Range header has parsed
without throwing: initialise the counters and run the background loop. -/
def downloadMain (hdrs0 : HeadersObj) (first : Response) (rest : List Response)
    (etag : Option String) (range : Option ReqRange)
    (cr : Option ContentRange) : DownloadRun :=
  let cur0 := initialCurrent cr
  let left0 := initialBudget cr (jsHeadersGet first.headers "content-length")
  let t := downloadLoop range etag first rest hdrs0 cur0 left0
  { result := .ok first.headers, events := t.1,
    requests := hdrs0 :: t.2.1, finalHeaders := t.2.2 }

/-- The download function of the source over an explicit fetch script: the
first fetch returns first, each later fetch pops the next response of rest.
The init.headers default assignment, the status switch with its abort path,
the capture of etag, request range and Content-Range, the counter
initialisation and the background loop follow the source in order.  A thrown
TypeError from the Content-Range parse rejects the returned promise. -/
def download (init : RequestInit) (first : Response) (rest : List Response) :
    DownloadRun :=
  let hdrs0 := init.headers.getD []
  if ¬ (first.status = 200 ∨ first.status = 201 ∨ first.status = 206) then
    { result := .ok first.headers,
      events := [.abort ("Invalid Status Code (" ++ toString first.status ++
        "): " ++ first.statusText)],
      requests := [hdrs0],
      finalHeaders := hdrs0 }
  else
    let etag := jsHeadersGet first.headers "etag"
    let range := (jsHeadersGet hdrs0 "range").map parseRequestRange
    match jsHeadersGet first.headers "content-range" with
    | some v =>
      match parseContentRange v with
      | .error msg =>
        { result := .error msg, events := [], requests := [hdrs0],
          finalHeaders := hdrs0 }
      | .ok c => downloadMain hdrs0 first rest etag range (some c)
    | none => downloadMain hdrs0 first rest etag range none

/-- Concatenation of all chunk payloads delivered on the output channel. -/
def deliveredBytes (r : DownloadRun) : List Nat :=
  r.events.foldr
    (fun e acc => match e with | .chunk bs => bs ++ acc | _ => acc) []

theorem jsSubarrayTo_int_length_le (c : List Nat) (b : Int) (hb : 0 ≤ b) :
    ((jsSubarrayTo c (.int b)).length : Int) ≤ b := by
  simp only [jsSubarrayTo, if_neg (not_lt.mpr hb), List.length_take]
  omega

theorem transformChunk_int (c : List Nat) (a b : Int) :
    transformChunk c (.int a) (.int b) =
      (jsSubarrayTo c (.int b),
       .int (a + ((jsSubarrayTo c (.int b)).length : Int)),
       .int (b - ((jsSubarrayTo c (.int b)).length : Int))) := by
  simp [transformChunk, jsAdd, jsSub, jsNeg, Int.sub_eq_add_neg]

theorem pumpChunks_int_shift (chunks : List (List Nat)) :
    ∀ a b : Int, 0 ≤ b →
      ∃ d : Int, 0 ≤ d ∧ d ≤ b ∧
        (pumpChunks chunks (.int a) (.int b)).cur = .int (a + d) ∧
        (pumpChunks chunks (.int a) (.int b)).left = .int (b - d) := by
  induction chunks with
  | nil =>
    intro a b hb
    exact ⟨0, le_refl 0, hb, by simp [pumpChunks], by simp [pumpChunks]⟩
  | cons c cs ih =>
    intro a b hb
    have hm0 : (0 : Int) ≤ ((jsSubarrayTo c (.int b)).length : Int) :=
      Int.natCast_nonneg _
    have hmb := jsSubarrayTo_int_length_le c b hb
    obtain ⟨d, hd0, hdb, hcur, hleft⟩ :=
      ih (a + ((jsSubarrayTo c (.int b)).length : Int))
        (b - ((jsSubarrayTo c (.int b)).length : Int)) (by omega)
    refine ⟨((jsSubarrayTo c (.int b)).length : Int) + d, by omega, by omega,
      ?_, ?_⟩
    · simp [pumpChunks, transformChunk_int, hcur, add_assoc]
    · simp only [pumpChunks, transformChunk_int, hleft]
      congr 1
      omega

/-- C1: a first response carrying Content-Range bytes 0-1/2 declares the
inclusive byte span 0..1, yet the code initialises the budget to
end minus start = 1, so of the two body bytes [10, 20] only the byte at
offset 0 is forwarded before a clean close: the byte at the declared end
offset is dropped, refuting the round-trip property as claimed. -/
theorem contentRange_budget_drops_last_byte :
    (download ⟨none⟩ ⟨206, "", [("content-range", "bytes 0-1/2")], [[10, 20]],
        false, false⟩ []).events = [.chunk [10], .close] ∧
    initialBudget (some ⟨.int 0, .int 1, .nan⟩) none = .int 1 ∧
    deliveredBytes (download ⟨none⟩ ⟨206, "",
        [("content-range", "bytes 0-1/2")], [[10, 20]], false, false⟩ []) ≠
      [10, 20] := by
  refine ⟨rfl, by decide, by decide⟩

/-- C2: with an open-ended original Range header bytes=100-, a first
response with Content-Range bytes 100-199/200 and a stream failure after 30
forwarded bytes, the retry request carries Range bytes=130-0 (the Number
conversion of the empty end text yields 0), not bytes=130- as the claim
states; the bounded example of the claim (original end 199 preserved as
bytes=130-199) does hold. -/
theorem retry_range_open_end_becomes_zero :
    (download ⟨some [("range", "bytes=100-")]⟩
        ⟨206, "", [("content-range", "bytes 100-199/200"), ("etag", "tag1")],
          [List.replicate 30 5], true, false⟩
        [⟨206, "", [], [], false, false⟩]).requests.map
        (fun hd => jsHeadersGet hd "range") =
      [some "bytes=100-", some "bytes=130-0"] ∧
    (some "bytes=130-0" : Option String) ≠ some "bytes=130-" ∧
    (download ⟨some [("range", "bytes=100-199")]⟩
        ⟨206, "", [("content-range", "bytes 100-199/200"), ("etag", "tag1")],
          [List.replicate 30 5], true, false⟩
        [⟨206, "", [], [], false, false⟩]).requests.map
        (fun hd => jsHeadersGet hd "range") =
      [some "bytes=100-199", some "bytes=130-199"] := by
  refine ⟨rfl, by decide, rfl⟩

/-- C3: a first response with accepted status 200 whose Content-Range header
does not start with the bytes unit makes the code throw a TypeError inside
the async function, so the promise returned by download REJECTS with that
message and the output channel receives no abort (and no bytes): the failure
is not surfaced through the abort signal of the output channel as the claim
states. -/
theorem malformed_content_range_rejects_promise :
    (download ⟨none⟩ ⟨200, "OK", [("content-range", "octets 0-1/2")], [[1, 2]],
        false, false⟩ []).result =
      .error "Content-Range header has unsupported unit: octets 0-1/2" ∧
    (download ⟨none⟩ ⟨200, "OK", [("content-range", "octets 0-1/2")], [[1, 2]],
        false, false⟩ []).events = [] :=
  ⟨rfl, rfl⟩

/-- C7: for both a numeric total and a star total the code compares the
substring that still contains the slash against the star and then applies
the Number conversion to the WHOLE header value, so the parsed total is
always NaN: it equals neither the integer after the slash nor infinity. -/
theorem content_range_total_always_nan :
    parseContentRange "bytes 100-199/200" =
      .ok ⟨.int 100, .int 199, .nan⟩ ∧
    parseContentRange "bytes 0-0/*" = .ok ⟨.int 0, .int 0, .nan⟩ ∧
    JSNum.nan ≠ .int 200 ∧ JSNum.nan ≠ .posInf :=
  ⟨rfl, rfl, by decide, by decide⟩

/-- C8: on the header value bytes=5- the code yields start = NaN (the Number
conversion is applied to the text before the dash with the unit text still
attached) and end = 0 (the Number conversion of the empty string), not
start = 5 with an absent end as the claim states; the first range segment is
honoured for the end bound, as the two-segment value shows. -/
theorem request_range_start_nan_end_zero :
    parseRequestRange "bytes=5-" = ⟨.nan, .int 0⟩ ∧
    parseRequestRange "bytes=0-5,10-20" = ⟨.nan, .int 5⟩ ∧
    JSNum.nan ≠ .int 5 ∧ JSNum.int 0 ≠ .nan :=
  ⟨rfl, rfl, by decide, by decide⟩

/-- C9: for a bounded session started from Content-Range start s, end e, the
counters begin at currentSize = s and bytesLeft = e - s, whose sum is the
declared end boundary e; every transform step enqueues the chunk truncated
to the budget and moves currentSize up and bytesLeft down by exactly the
truncated length, which never exceeds the budget; hence after any list of
chunks the sum of the counters is still e and bytesLeft stays nonnegative. -/
theorem session_budget_invariant (s e : Int) (hse : s ≤ e)
    (chunks : List (List Nat)) (clen : Option String) (t : JSNum) :
    (initialCurrent (some ⟨.int s, .int e, t⟩) = .int s ∧
      initialBudget (some ⟨.int s, .int e, t⟩) clen = .int (e - s) ∧
      s + (e - s) = e) ∧
    (∀ (c : List Nat) (a b : Int), 0 ≤ b →
      transformChunk c (.int a) (.int b) =
        (jsSubarrayTo c (.int b),
         .int (a + ((jsSubarrayTo c (.int b)).length : Int)),
         .int (b - ((jsSubarrayTo c (.int b)).length : Int))) ∧
      ((jsSubarrayTo c (.int b)).length : Int) ≤ b) ∧
    (∃ d : Int, 0 ≤ d ∧ d ≤ e - s ∧
      (pumpChunks chunks (.int s) (.int (e - s))).cur = .int (s + d) ∧
      (pumpChunks chunks (.int s) (.int (e - s))).left = .int (e - s - d) ∧
      (s + d) + (e - s - d) = e) := by
  refine ⟨⟨rfl, ?_, by omega⟩, ?_, ?_⟩
  · simp [initialBudget, jsSub, jsNeg, jsAdd, Int.sub_eq_add_neg]
  · intro c a b hb
    exact ⟨transformChunk_int c a b, jsSubarrayTo_int_length_le c b hb⟩
  · obtain ⟨d, hd0, hdb, hcur, hleft⟩ :=
      pumpChunks_int_shift chunks s (e - s) (by omega)
    exact ⟨d, hd0, hdb, hcur, hleft, by omega⟩

/-- Witness for the bounded-session invariant at s = 0, e = 2 with a single
three-byte chunk. -/
theorem session_budget_invariant_witness :
    ((0 : Int) ≤ 2) ∧
    (∃ d : Int, 0 ≤ d ∧ d ≤ 2 - 0 ∧
      (pumpChunks [[1, 2, 3]] (.int 0) (.int (2 - 0))).cur = .int (0 + d) ∧
      (pumpChunks [[1, 2, 3]] (.int 0) (.int (2 - 0))).left =
        .int (2 - 0 - d) ∧
      (0 + d) + (2 - 0 - d) = 2) :=
  ⟨by decide,
   (session_budget_invariant 0 2 (by decide) [[1, 2, 3]] none .nan).2.2⟩

/-- C4: for any initial response status outside 200, 201, 206 the promise
still resolves with the first response headers, the output channel is
aborted at once with a message embedding the numeric status and the status
text, and the single initial fetch is the only request of the session. -/
theorem invalid_status_aborts (s : Nat) (txt : String) (hdrs : HeadersObj)
    (body : List (List Nat)) (bf sg : Bool) (init : RequestInit)
    (rest : List Response)
    (h200 : s ≠ 200) (h201 : s ≠ 201) (h206 : s ≠ 206) :
    (download init ⟨s, txt, hdrs, body, bf, sg⟩ rest).result = .ok hdrs ∧
    (download init ⟨s, txt, hdrs, body, bf, sg⟩ rest).events =
      [.abort ("Invalid Status Code (" ++ toString s ++ "): " ++ txt)] ∧
    (download init ⟨s, txt, hdrs, body, bf, sg⟩ rest).requests =
      [init.headers.getD []] := by
  simp [download, h200, h201, h206]

/-- Witness for the invalid-status claim at status 404. -/
theorem invalid_status_aborts_witness :
    (404 ≠ 200) ∧
    (download ⟨none⟩ ⟨404, "Not Found", [], [], false, false⟩ []).events =
      [.abort ("Invalid Status Code (" ++ toString (404 : Nat) ++ "): " ++
        "Not Found")] :=
  ⟨by decide,
   (invalid_status_aborts 404 "Not Found" [] [] false false ⟨none⟩ []
      (by decide) (by decide) (by decide)).2.1⟩

/-- C5: when a retry fetch answers with any status other than 206, the
output channel is aborted with a message naming that status and the loop
issues no further request, whatever responses the environment still holds:
exactly two fetches happen, the initial one and the rejected retry. -/
theorem resume_non206_aborts (s : Nat) (txt : String) (rs : List Response)
    (hs : s ≠ 206) :
    (download ⟨none⟩ ⟨206, "", [], [[1, 2, 3]], true, false⟩
        (⟨s, txt, [], [[9]], false, false⟩ :: rs)).events =
      [.chunk [1, 2, 3],
       .abort ("Status Code (" ++ toString s ++ ") wasn\x27t 206")] ∧
    (download ⟨none⟩ ⟨206, "", [], [[1, 2, 3]], true, false⟩
        (⟨s, txt, [], [[9]], false, false⟩ :: rs)).requests.length = 2 := by
  simp [download, downloadMain, downloadLoop, pumpChunks, transformChunk,
    jsSubarrayTo, jsAdd, jsSub, jsNeg, jsHeadersGet, headerNameEq,
    retryHeaders, objSet, rangeEndStr, jsNumToString, initialCurrent,
    initialBudget, contentLengthBudget, hs]

/-- Witness for the rejected-resume claim at retry status 200. -/
theorem resume_non206_aborts_witness :
    (200 ≠ 206) ∧
    (download ⟨none⟩ ⟨206, "", [], [[1, 2, 3]], true, false⟩
        [⟨200, "X", [], [[9]], false, false⟩]).requests.length = 2 :=
  ⟨by decide, (resume_non206_aborts 200 "X" [] (by decide)).2⟩

/-- C6: when the cancellation signal of the caller is set at the moment the
body stream fails, the session ends silently: whatever the chunks delivered
before the failure and whatever responses the environment still holds, the
output channel sees neither a close nor an abort and no retry fetch is
issued; the same holds when the failure happens on a retried attempt. -/
theorem cancelled_error_silent (chunks chunks2 : List (List Nat))
    (rest rest2 : List Response) :
    ((∀ e ∈ (download ⟨none⟩ ⟨200, "OK", [], chunks, true, true⟩ rest).events,
        e ≠ .close ∧ ∀ m, e ≠ .abort m) ∧
      (download ⟨none⟩ ⟨200, "OK", [], chunks, true, true⟩
        rest).requests.length = 1) ∧
    ((∀ e ∈ (download ⟨none⟩ ⟨206, "", [], chunks, true, false⟩
          (⟨206, "", [], chunks2, true, true⟩ :: rest2)).events,
        e ≠ .close ∧ ∀ m, e ≠ .abort m) ∧
      (download ⟨none⟩ ⟨206, "", [], chunks, true, false⟩
        (⟨206, "", [], chunks2, true, true⟩ :: rest2)).requests.length = 2) := by
  constructor
  · constructor
    · intro e he
      simp [download, downloadMain, downloadLoop, jsHeadersGet,
        headerNameEq, initialCurrent, initialBudget, contentLengthBudget]
        at he
      obtain ⟨bs, _, rfl⟩ := he
      exact ⟨by simp, fun m => by simp⟩
    · simp [download, downloadMain, downloadLoop, jsHeadersGet,
        headerNameEq, initialCurrent, initialBudget, contentLengthBudget]
  · constructor
    · intro e he
      simp [download, downloadMain, downloadLoop, jsHeadersGet,
        headerNameEq, initialCurrent, initialBudget, contentLengthBudget]
        at he
      rcases he with ⟨bs, _, rfl⟩ | ⟨bs, _, rfl⟩ <;>
        exact ⟨by simp, fun m => by simp⟩
    · simp [download, downloadMain, downloadLoop, jsHeadersGet,
        headerNameEq, initialCurrent, initialBudget, contentLengthBudget]

/-- C10: the init object supplied by the caller is mutated: on entry an
absent headers field is replaced by an empty object (a present one is
reassigned unchanged), and on a retry the headers field is overwritten by a
new object whose range and if-match entries are replaced, the other entries
kept; the final value of init.headers visible to the caller reflects this,
as the concrete overwrite of a bytes=0-999 range entry shows. -/
theorem init_headers_mutation (h : HeadersObj) :
    (download ⟨none⟩ ⟨200, "OK", [], [[1]], false, false⟩ []).finalHeaders
      = [] ∧
    (download ⟨some h⟩ ⟨200, "OK", [], [[1]], false, false⟩ []).finalHeaders
      = h ∧
    (download ⟨some h⟩ ⟨200, "OK", [], [[1, 2]], true, false⟩ []).finalHeaders
      = retryHeaders h (.int 2)
          ((jsHeadersGet h "range").map parseRequestRange) none ∧
    (download ⟨some [("range", "bytes=0-999"), ("x", "y")]⟩
        ⟨200, "OK", [], [[1, 2]], true, false⟩ []).finalHeaders =
      [("range", "bytes=2-999"), ("x", "y"), ("if-match", "")] := by
  refine ⟨rfl, ?_, ?_, by decide⟩
  · simp [download, downloadMain, downloadLoop, jsHeadersGet, headerNameEq,
      initialCurrent, initialBudget, contentLengthBudget, pumpChunks,
      transformChunk, jsSubarrayTo, jsAdd, jsSub, jsNeg]
  · simp [download, downloadMain, downloadLoop, jsHeadersGet, headerNameEq,
      initialCurrent, initialBudget, contentLengthBudget, pumpChunks,
      transformChunk, jsSubarrayTo, jsAdd, jsSub, jsNeg]

end Download
